import Mathlib

/- Shallow embedding of the hermes physical-layer crate:
   src/time.rs, src/physical/mod.rs and src/physical/packet_capture.rs.
   Rust i64/u32 values are modelled as Int/Nat with explicit range checks and
   truncations where the source performs machine arithmetic; a Rust panic is
   modelled as Except.error carrying the state at the moment of the panic. -/

/-- Absolute time value from src/time.rs: `struct Instant { micros: i64 }`.
The field is the raw signed microsecond count. -/
structure Instant where
  micros : Int
  deriving DecidableEq

/-- Range of Rust i64. An arithmetic result outside this range overflows:
debug builds panic, release builds wrap; the constructors below are modelled
checked (none on overflow), and either semantics invalidates the unbounded
scaling claim. -/
def i64InRange (x : Int) : Prop := -(2 ^ 63) ≤ x ∧ x ≤ 2 ^ 63 - 1

instance (x : Int) : Decidable (i64InRange x) :=
  inferInstanceAs (Decidable (_ ∧ _))

/-- Instant::from_micros (src/time.rs:14): stores the argument unchanged. -/
def Instant.from_micros (micros : Int) : Instant := ⟨micros⟩

/-- Instant::from_millis (src/time.rs:20): stores `millis.into() * 1000`,
an i64 multiplication. -/
def Instant.from_millis (millis : Int) : Option Instant :=
  if i64InRange (millis * 1000) then some ⟨millis * 1000⟩ else none

/-- Instant::from_secs (src/time.rs:26): stores `secs.into() * 1000000`,
an i64 multiplication. -/
def Instant.from_secs (secs : Int) : Option Instant :=
  if i64InRange (secs * 1000000) then some ⟨secs * 1000000⟩ else none

/-- Instant::ZERO (src/time.rs:12). -/
def Instant.ZERO : Instant := ⟨0⟩

/-- The derived Ord of Instant (src/time.rs:6 `derive(PartialOrd, Ord)`):
lexicographic over the single field, i.e. i64 comparison of the raw
microsecond counts. -/
def Instant.cmp (a b : Instant) : Ordering :=
  if a.micros < b.micros then Ordering.lt
  else if a.micros = b.micros then Ordering.eq
  else Ordering.gt

/-- Modelled from the spec: the `secs()` accessor called at
src/physical/packet_capture.rs:70 is repository code not under src/. Per the
spec it derives the whole-seconds part of the stored value; Rust i64 division
truncates, hence Int.tdiv. -/
def Instant.secs (i : Instant) : Int := Int.tdiv i.micros 1000000

/-- Modelled from the spec: the `micros()` accessor called at
src/physical/packet_capture.rs:71 is repository code not under src/. Per the
spec it derives the sub-second microsecond remainder; Rust i64 `%` truncates,
hence Int.tmod. Named subsecMicros here only because the struct field already
carries the source name `micros`. -/
def Instant.subsecMicros (i : Instant) : Int := Int.tmod i.micros 1000000

/-- Metadata of a packet (src/physical/mod.rs:7). -/
structure PacketMetadata where
  id : Nat
  deriving DecidableEq

/-- Checksum behaviour of a given protocol (src/physical/mod.rs:47). -/
inductive Checksum where
  | Both
  | None
  | Rx
  | Tx
  deriving DecidableEq

/-- derive(Default) with `#[default]` on Both (src/physical/mod.rs:44-49). -/
instance : Inhabited Checksum := ⟨Checksum.Both⟩

/-- Checksum::tx (src/physical/mod.rs:92): matches `Self::Both | Self::Tx`. -/
def Checksum.tx : Checksum → Bool
  | Checksum.Both => true
  | Checksum.Tx => true
  | _ => false

/-- Checksum::rx (src/physical/mod.rs:100): matches `Self::Both | Self::Rx`. -/
def Checksum.rx : Checksum → Bool
  | Checksum.Both => true
  | Checksum.Rx => true
  | _ => false

/-- Type of a medium device (src/physical/mod.rs:61). -/
inductive Medium where
  | Ethernet
  | Ip
  deriving DecidableEq

/-- Checksum behaviour for each protocol (src/physical/mod.rs:38). -/
structure ChecksumCapabilities where
  ipv4 : Checksum
  udp : Checksum
  tcp : Checksum
  deriving DecidableEq

/-- A device's capabilities (src/physical/mod.rs:13). usize fields become Nat;
no arithmetic is performed on them in this crate. -/
structure DeviceCapabilities where
  medium : Medium
  max_transmission_unit : Nat
  max_burst_size : Option Nat
  checksum : ChecksumCapabilities
  deriving DecidableEq

/-- Return type of Device::capabilities exactly as declared at
src/physical/mod.rs:119: `fn capabilities(&self) -> Option<()>` — an optional
unit, not an optional DeviceCapabilities. -/
abbrev Device.capabilitiesReturn : Type := Option Unit

/-- The RxToken trait as declared at src/physical/mod.rs:122:
`pub trait RxToken {}`. It lists no methods; this structure records the
(absent) obligations an implementing type T must provide. -/
structure RxToken (T : Type)

/-- The TxToken trait as declared at src/physical/mod.rs:124:
`pub trait TxToken {}`. It lists no methods either. -/
structure TxToken (T : Type)

/-- A concrete descriptor used to probe the capabilities signature: Ethernet
medium, the given MTU, no burst limit, default checksum policy. -/
def capsWithMtu (n : Nat) : DeviceCapabilities :=
  ⟨Medium.Ethernet, n, Option.none, ⟨Checksum.Both, Checksum.Both, Checksum.Both⟩⟩

/-- Modelled from the spec: PcapLink is declared through the
`enum_with_unknown!` macro (src/physical/packet_capture.rs:17), and the macro
itself is repository code not under src/. Per the spec the expansion is a
tagged value holding either a known code or the raw numeric fallback. -/
inductive PcapLink where
  | Ethernet
  | Ip
  | Unknown (code : Nat)
  deriving DecidableEq

/-- Modelled from the spec: the `From<PcapLink> for u32` conversion generated
by `enum_with_unknown!` (used by global_header via `link.into()`):
Ethernet = 1, Ip = 101, Unknown carries its raw code. -/
def PcapLink.toU32 : PcapLink → Nat
  | PcapLink.Ethernet => 1
  | PcapLink.Ip => 101
  | PcapLink.Unknown code => code

/-- Modelled from the spec: the `From<u32> for PcapLink` conversion generated
by `enum_with_unknown!`: known codes map to the named variants, anything else
to the Unknown fallback. -/
def PcapLink.ofU32 (code : Nat) : PcapLink :=
  if code = 1 then PcapLink.Ethernet
  else if code = 101 then PcapLink.Ip
  else PcapLink.Unknown code

/-- Capture direction selector (src/physical/packet_capture.rs:7). -/
inductive PcapMode where
  | Both
  | Tx
  | Rx
  deriving DecidableEq

/-- PcapSink::U16_SIZE (src/physical/packet_capture.rs:28). -/
def PcapSink.U16_SIZE : Nat := 2

/-- PcapSink::U32_SIZE (src/physical/packet_capture.rs:29). -/
def PcapSink.U32_SIZE : Nat := 4

/-- PcapSink::STD_MAGIC_NUMBER (src/physical/packet_capture.rs:32). -/
def PcapSink.STD_MAGIC_NUMBER : Nat := 0xA1B2C3D4

/-- PcapSink::MAX_LEN (src/physical/packet_capture.rs:34): u16::MAX as u32. -/
def PcapSink.MAX_LEN : Nat := 65535

/-- State of the reference sink: the byte stream appended so far. The trait
leaves `write`/`flush` to implementors; a memory-buffer sink is the canonical
model. Bytes are Nats below 256. -/
structure SinkState where
  bytes : List Nat
  deriving DecidableEq

/-- PcapSink::write (src/physical/packet_capture.rs:37) for the reference
sink: append the content to the stream. -/
def PcapSink.write (s : SinkState) (content : List Nat) : SinkState :=
  ⟨s.bytes ++ content⟩

/-- PcapSink::flush (src/physical/packet_capture.rs:52) for the reference
sink: a memory buffer has nothing to flush. -/
def PcapSink.flush (s : SinkState) : SinkState := s

/-- Native-endian encoding of a 16-bit value. The boolean selects the host
byte order (true = little-endian host, false = big-endian host); byteorder's
NativeEndian resolves to one of the two at compile time. -/
def enc16 (le : Bool) (c : Nat) : List Nat :=
  if le then [c % 256, c / 256 % 256] else [c / 256 % 256, c % 256]

/-- Native-endian encoding of a 32-bit value, same convention as enc16. -/
def enc32 (le : Bool) (c : Nat) : List Nat :=
  if le then [c % 256, c / 256 % 256, c / 65536 % 256, c / 16777216 % 256]
  else [c / 16777216 % 256, c / 65536 % 256, c / 256 % 256, c % 256]

/-- Reads a 16-bit value back from a two-byte slice in the same byte order. -/
def dec16 (le : Bool) : List Nat → Nat
  | [b0, b1] => if le then b0 + 256 * b1 else b1 + 256 * b0
  | _ => 0

/-- byteorder's ByteOrder::write_u16 into a caller-supplied buffer: documented
to panic (none) when the buffer holds fewer than 2 bytes, otherwise it
overwrites the first 2 bytes with the native-endian encoding. -/
def nativeWriteU16 (le : Bool) (buf : List Nat) (c : Nat) : Option (List Nat) :=
  if buf.length < 2 then Option.none else some (enc16 le c ++ buf.drop 2)

/-- byteorder's ByteOrder::write_u32: panics (none) when the buffer holds
fewer than 4 bytes, otherwise overwrites the first 4 bytes. -/
def nativeWriteU32 (le : Bool) (buf : List Nat) (c : Nat) : Option (List Nat) :=
  if buf.length < 4 then Option.none else some (enc32 le c ++ buf.drop 4)

/-- PcapSink::write_u16 (src/physical/packet_capture.rs:39):
`let mut bytes = [0u8, Self::U16_SIZE];` is the two-element array [0, 2];
NativeEndian::write_u16 fills both bytes and the result is written to the
sink. -/
def PcapSink.write_u16 (le : Bool) (s : SinkState) (content : Nat) :
    Except SinkState SinkState :=
  match nativeWriteU16 le [0, PcapSink.U16_SIZE] content with
  | Option.none => Except.error s
  | some bytes => Except.ok (PcapSink.write s bytes)

/-- PcapSink::write_u32 (src/physical/packet_capture.rs:47):
`let mut bytes = [0u8, Self::U32_SIZE];` is the TWO-element array [0, 4]
(a comma, not `[0u8; 4]`), so byteorder's write_u32 receives a 2-byte buffer
and panics before anything reaches the sink. -/
def PcapSink.write_u32 (le : Bool) (s : SinkState) (content : Nat) :
    Except SinkState SinkState :=
  match nativeWriteU32 le [0, PcapSink.U32_SIZE] content with
  | Option.none => Except.error s
  | some bytes => Except.ok (PcapSink.write s bytes)

/-- Rust `as` cast from i64 to u32: truncation to the low 32 bits. -/
def u32cast (x : Int) : Nat := (Int.emod x 4294967296).toNat

/-- PcapSink::global_header (src/physical/packet_capture.rs:56): magic,
version 2.4, thiszone 0, sigfigs 0, snaplen MAX_LEN, link code. -/
def PcapSink.global_header (le : Bool) (s : SinkState) (link : PcapLink) :
    Except SinkState SinkState := do
  let s ← PcapSink.write_u32 le s PcapSink.STD_MAGIC_NUMBER
  let s ← PcapSink.write_u16 le s 2
  let s ← PcapSink.write_u16 le s 4
  let s ← PcapSink.write_u32 le s 0
  let s ← PcapSink.write_u32 le s 0
  let s ← PcapSink.write_u32 le s PcapSink.MAX_LEN
  PcapSink.write_u32 le s link.toU32

/-- PcapSink::packet_header (src/physical/packet_capture.rs:67):
`assert!(len <= Self::MAX_LEN as _)` (an assert failure is a panic with the
state untouched), then ts_sec, ts_usec, incl_len, orig_len as u32 writes. -/
def PcapSink.packet_header (le : Bool) (s : SinkState) (timestamp : Instant)
    (len : Nat) : Except SinkState SinkState :=
  if len ≤ PcapSink.MAX_LEN then do
    let s1 ← PcapSink.write_u32 le s (u32cast timestamp.secs)
    let s2 ← PcapSink.write_u32 le s1 (u32cast timestamp.subsecMicros)
    let s3 ← PcapSink.write_u32 le s2 (len % 4294967296)
    PcapSink.write_u32 le s3 (len % 4294967296)
  else Except.error s

/-- PcapSink::packet (src/physical/packet_capture.rs:78): header, then the
raw bytes, then flush. -/
def PcapSink.packet (le : Bool) (s : SinkState) (timestamp : Instant)
    (pkt : List Nat) : Except SinkState SinkState := do
  let s ← PcapSink.packet_header le s timestamp pkt.length
  Except.ok (PcapSink.flush (PcapSink.write s pkt))

/-- The C1 capture scenario: global header with link Ethernet on an empty
sink, then one 14-byte packet at from_secs(100), whose stored count is
100000000 microseconds. -/
def c1Capture (le : Bool) : Except SinkState SinkState := do
  let s ← PcapSink.global_header le ⟨[]⟩ PcapLink.Ethernet
  PcapSink.packet le s ⟨100000000⟩ (List.replicate 14 0xAB)

theorem optionUnitPigeon : ∀ x y z : Option Unit, x ≠ y → x ≠ z → y = z := by
  decide

/-- C1: the specified capture scenario does not produce the specified byte
stream: the very first write_u32 (the magic number) panics on its 2-byte
buffer, and the sink receives no bytes at all, on hosts of either byte
order. -/
theorem c1_capture_panics_with_empty_stream :
    c1Capture true = Except.error ⟨[]⟩ ∧ c1Capture false = Except.error ⟨[]⟩ := by
  constructor <;> rfl

/-- C2: the declared return type Option<()> of Device::capabilities cannot
carry the DeviceCapabilities descriptor: any function from descriptors into
that type identifies two distinct descriptors. -/
theorem capabilities_return_loses_descriptor :
    ∀ f : DeviceCapabilities → Device.capabilitiesReturn,
      ∃ a b : DeviceCapabilities, a ≠ b ∧ f a = f b := by
  intro f
  by_cases h01 : f (capsWithMtu 68) = f (capsWithMtu 1500)
  · exact ⟨capsWithMtu 68, capsWithMtu 1500, by decide, h01⟩
  · by_cases h02 : f (capsWithMtu 68) = f (capsWithMtu 9000)
    · exact ⟨capsWithMtu 68, capsWithMtu 9000, by decide, h02⟩
    · exact ⟨capsWithMtu 1500, capsWithMtu 9000, by decide,
        optionUnitPigeon _ _ _ h01 h02⟩

/-- C3: the RxToken and TxToken traits declare no methods at all, so every
type implements them with a unique trivial instance; in particular no consume
operation, and no single-use contract, exists in the code. -/
theorem token_traits_declare_no_consume :
    ∀ T : Type,
      (Nonempty (RxToken T) ∧ ∀ a b : RxToken T, a = b) ∧
      (Nonempty (TxToken T) ∧ ∀ a b : TxToken T, a = b) := by
  intro T
  refine ⟨⟨⟨⟨⟩⟩, ?_⟩, ⟨⟨⟨⟩⟩, ?_⟩⟩ <;> intro a b <;> cases a <;> cases b <;> rfl

/-- C4: tx() is true exactly on Both and Tx, rx() exactly on Both and Rx;
Both is the only variant with both true and None the only one with both
false. -/
theorem checksum_tx_rx_characterisation :
    ∀ c : Checksum,
      (c.tx = true ↔ (c = Checksum.Both ∨ c = Checksum.Tx)) ∧
      (c.rx = true ↔ (c = Checksum.Both ∨ c = Checksum.Rx)) ∧
      ((c.tx = true ∧ c.rx = true) ↔ c = Checksum.Both) ∧
      ((c.tx = false ∧ c.rx = false) ↔ c = Checksum.None) := by
  intro c
  cases c <;> decide

/-- C5: for len above MAX_LEN the assertion panics before any header field is
written (state unchanged); but for a legal length the 16-byte record header is
not written either — the first write_u32 panics on its 2-byte buffer. -/
theorem packet_header_assert_then_panic :
    (∀ (le : Bool) (s : SinkState) (timestamp : Instant) (len : Nat),
        PcapSink.MAX_LEN < len →
          PcapSink.packet_header le s timestamp len = Except.error s) ∧
    PcapSink.packet_header true ⟨[]⟩ ⟨100000000⟩ 14 = Except.error ⟨[]⟩ := by
  constructor
  · intro le s timestamp len h
    unfold PcapSink.packet_header
    rw [if_neg (Nat.not_le.mpr h)]
  · rfl

theorem packet_header_assert_then_panic_witness :
    PcapSink.MAX_LEN < 65536 ∧
    PcapSink.packet_header false ⟨[]⟩ ⟨0⟩ 65536 = Except.error ⟨[]⟩ :=
  ⟨by decide, packet_header_assert_then_panic.1 false ⟨[]⟩ ⟨0⟩ 65536 (by decide)⟩

/-- C6: for every stored count m, secs() and micros() decompose m as
m = secs*1000000 + subsec, and for non-negative m the sub-second part is a
genuine remainder in [0, 1000000). -/
theorem instant_secs_micros_decomposition :
    ∀ m : Int,
      (Instant.mk m).secs * 1000000 + (Instant.mk m).subsecMicros = m ∧
      (0 ≤ m → 0 ≤ (Instant.mk m).subsecMicros ∧
        (Instant.mk m).subsecMicros < 1000000) := by
  intro m
  constructor
  · simpa [Instant.secs, Instant.subsecMicros] using Int.tdiv_add_tmod' m 1000000
  · intro hm
    exact ⟨Int.tmod_nonneg _ hm, Int.tmod_lt_of_pos m (by norm_num)⟩

theorem instant_secs_micros_decomposition_witness :
    ((Instant.mk 100000000).secs * 1000000 + (Instant.mk 100000000).subsecMicros
        = 100000000) ∧
    (0 ≤ (100000000 : Int)) ∧
    (0 ≤ (Instant.mk 100000000).subsecMicros ∧
      (Instant.mk 100000000).subsecMicros < 1000000) :=
  ⟨(instant_secs_micros_decomposition 100000000).1, by decide,
    (instant_secs_micros_decomposition 100000000).2 (by decide)⟩

/-- C7 counterexample: the unbounded scaling claim is false on i64 storage:
from_millis(2^61) overflows (the product 2^61*1000 exceeds 2^63-1), so no
Instant stores 2^61*1000. -/
theorem from_millis_overflow_counterexample :
    ¬ ((∀ n : Int, 0 ≤ n → Instant.from_millis n = some (Instant.mk (n * 1000))) ∧
       (∀ n : Int, 0 ≤ n → Instant.from_secs n = some (Instant.mk (n * 1000000))) ∧
       Instant.from_secs 1 = Instant.from_millis 1000) := by
  intro h
  have h1 := h.1 (2 ^ 61) (by norm_num)
  have h2 : Instant.from_millis (2 ^ 61) = Option.none := by decide
  rw [h2] at h1
  exact Option.noConfusion h1

/-- C7 amended: the scaling identities hold whenever the scaled value fits in
i64, and from_secs(1) = from_millis(1000). -/
theorem instant_constructors_scale :
    (∀ n : Int, 0 ≤ n → n * 1000 ≤ 2 ^ 63 - 1 →
        Instant.from_millis n = some (Instant.mk (n * 1000))) ∧
    (∀ n : Int, 0 ≤ n → n * 1000000 ≤ 2 ^ 63 - 1 →
        Instant.from_secs n = some (Instant.mk (n * 1000000))) ∧
    Instant.from_secs 1 = Instant.from_millis 1000 := by
  refine ⟨?_, ?_, by decide⟩
  · intro n h0 hub
    unfold Instant.from_millis
    rw [if_pos]
    exact ⟨le_trans (by norm_num) (mul_nonneg h0 (by norm_num)), hub⟩
  · intro n h0 hub
    unfold Instant.from_secs
    rw [if_pos]
    exact ⟨le_trans (by norm_num) (mul_nonneg h0 (by norm_num)), hub⟩

theorem instant_constructors_scale_witness :
    (0 ≤ (3 : Int)) ∧ ((3 : Int) * 1000 ≤ 2 ^ 63 - 1) ∧
    Instant.from_millis 3 = some (Instant.mk 3000) :=
  ⟨by decide, by decide, instant_constructors_scale.1 3 (by decide) (by decide)⟩

/-- C8: Ethernet converts to 1 and Ip to 101, and every u32 code that is not
one of the known ones round-trips losslessly through the Unknown fallback. -/
theorem pcaplink_codes_roundtrip :
    PcapLink.toU32 PcapLink.Ethernet = 1 ∧ PcapLink.toU32 PcapLink.Ip = 101 ∧
    ∀ code : Nat, code < 4294967296 → code ≠ 1 → code ≠ 101 →
      PcapLink.toU32 (PcapLink.ofU32 code) = code := by
  refine ⟨rfl, rfl, ?_⟩
  intro code _ h1 h101
  unfold PcapLink.ofU32
  rw [if_neg h1, if_neg h101]
  rfl

theorem pcaplink_codes_roundtrip_witness :
    (42 < 4294967296) ∧ (42 ≠ 1) ∧ (42 ≠ 101) ∧
    PcapLink.toU32 (PcapLink.ofU32 42) = 42 :=
  ⟨by decide, by decide, by decide,
    pcaplink_codes_roundtrip.2.2 42 (by decide) (by decide) (by decide)⟩

/-- C9: propositional equality of Instants is exactly equality of the raw
microsecond counts, and the derived ordering compares exactly the raw
counts. -/
theorem instant_eq_and_ord_compare_micros :
    ∀ a b : Instant,
      (a = b ↔ a.micros = b.micros) ∧
      (Instant.cmp a b = Ordering.lt ↔ a.micros < b.micros) ∧
      (Instant.cmp a b = Ordering.eq ↔ a.micros = b.micros) := by
  intro a b
  refine ⟨⟨fun h => congrArg Instant.micros h, fun h => ?_⟩, ?_, ?_⟩
  · cases a; cases b; simpa using h
  · unfold Instant.cmp
    split_ifs with h1 h2
    · simp [h1]
    · simp
      omega
    · simp
      omega
  · unfold Instant.cmp
    split_ifs with h1 h2
    · simp
      omega
    · simp [h2]
    · simp
      omega

/-- C10: write_u16 is exact — one ok write of a two-byte native-endian slice
whose decoding is the argument, never a panic — but global_header panics in
its first write_u32 before either version field is reached, on hosts of
either byte order. -/
theorem write_u16_exact_but_global_header_panics :
    (∀ (le : Bool) (s : SinkState) (c : Nat), c < 65536 →
        PcapSink.write_u16 le s c = Except.ok (PcapSink.write s (enc16 le c)) ∧
        (enc16 le c).length = 2 ∧ dec16 le (enc16 le c) = c) ∧
    (∀ (le : Bool) (s : SinkState) (link : PcapLink),
        PcapSink.global_header le s link = Except.error s) := by
  constructor
  · intro le s c hc
    refine ⟨?_, ?_, ?_⟩
    · cases le <;> rfl
    · cases le <;> rfl
    · cases le <;> simp [enc16, dec16] <;> omega
  · intro le s link
    rfl

theorem write_u16_exact_but_global_header_panics_witness :
    (48879 < 65536) ∧
    (PcapSink.write_u16 true ⟨[]⟩ 48879 =
        Except.ok (PcapSink.write ⟨[]⟩ (enc16 true 48879)) ∧
      (enc16 true 48879).length = 2 ∧ dec16 true (enc16 true 48879) = 48879) :=
  ⟨by decide, write_u16_exact_but_global_header_panics.1 true ⟨[]⟩ 48879 (by decide)⟩
